import Mathlib

/-!
Verification of the SOCKS5 client front end (`src/client.go`) of the
shadowsocks-ubuntu repository.

The Go code is shallowly embedded as pure Lean functions:

* A network stream is a `List Nat` of the bytes the peer will deliver
  (each in 0..255).  `io.ReadAtLeast(conn, buf, m)` may return any number
  `n` of bytes with `m ≤ n ≤ min (stream.length) (buf.size)`; the value
  `n` actually returned is a nondeterminism parameter of the embedding,
  constrained by the predicate `readAtLeastOk`.
* Fallible operations return `Except SockErr α`; `SockErr.ioErr` stands
  for any I/O failure (short stream on `io.ReadFull`, failed write).
* A Go panic is modelled by `Option.none`.
-/

namespace Shadowsocks

/-- Error values declared at the top of client.go.  `ioErr` stands for the
errors produced by the `io`/`net` libraries themselves (unexpected EOF on a
top-up read, write failure), which the code propagates unchanged. -/
inductive SockErr where
  | errAddrType
  | errVer
  | errMethod
  | errAuthExtraData
  | errReqExtraData
  | errCmd
  | ioErr
  deriving DecidableEq, Repr

def socksVer5 : Nat := 5
def socksCmdConnect : Nat := 1
def directionOutput : Nat := 0
def directionInput : Nat := 1

/-- net.IPv4len -/
def IPv4len : Nat := 4
/-- net.IPv6len -/
def IPv6len : Nat := 16

def typeIPv4 : Nat := 1
def typeDm : Nat := 3
def typeIPv6 : Nat := 4

/-- 3(ver+cmd+rsv) + 1 addrType + ipv4 + 2 port -/
def lenIPv4 : Nat := 3 + 1 + IPv4len + 2
/-- 3(ver+cmd+rsv) + 1 addrType + ipv6 + 2 port -/
def lenIPv6 : Nat := 3 + 1 + IPv6len + 2
/-- 3 + 1 addrType + 1 addrLen + 2 port, plus addrLen -/
def lenDmBase : Nat := 3 + 1 + 1 + 2

def idVer : Nat := 0
def idCmd : Nat := 1
def idType : Nat := 3
def idIP0 : Nat := 4
def idDmLen : Nat := 4
def idNmethod : Nat := 1

/-- `io.ReadAtLeast(conn, buf, minBytes)` on a stream holding
`stream.length` bytes, with a buffer of `cap` bytes, can succeed returning
`n` bytes exactly when `minBytes ≤ n ≤ min stream.length cap`. -/
def readAtLeastOk (stream : List Nat) (minBytes cap n : Nat) : Prop :=
  minBytes ≤ n ∧ n ≤ stream.length ∧ n ≤ cap

instance (stream : List Nat) (minBytes cap n : Nat) :
    Decidable (readAtLeastOk stream minBytes cap n) := by
  unfold readAtLeastOk; infer_instance

/-- `msgLen := nmethod + 2` of handShake, lines 169-170: the expected
total handshake length computed from the method-count byte. -/
def hsMsgLen (stream : List Nat) : Nat :=
  stream.getD idNmethod 0 + 2

/-- The sizing discipline of handShake, lines 171-179: `n == msgLen` is
fine, `n < msgLen` triggers `io.ReadFull(conn, buf[n:msgLen])` (which
succeeds iff the stream still holds the remaining `msgLen - n` bytes), and
`n > msgLen` is the extra-data error. -/
def hsSizing (stream : List Nat) (n : Nat) : Except SockErr Unit :=
  if n = hsMsgLen stream then .ok ()
  else if n < hsMsgLen stream then
    if hsMsgLen stream ≤ stream.length then .ok () else .error .ioErr
  else .error .errAuthExtraData

/-- Service.handShake, lines 148-183 of client.go.

`stream` is the byte sequence the client sends, `n` the number of bytes the
initial `io.ReadAtLeast(conn, buf, idNmethod+1)` returned (the buffer has
258 bytes), and `writeOk` whether the final `conn.Write([]byte{5, 0})`
succeeds.  On success the result carries the total number of bytes consumed
from the stream and the bytes written back to the client. -/
def handShake (stream : List Nat) (n : Nat) (writeOk : Bool) :
    Except SockErr (Nat × List Nat) :=
  if stream.getD idVer 0 ≠ socksVer5 then .error .errVer
  else
    match hsSizing stream n with
    | .error e => .error e
    | .ok _ =>
      if writeOk then .ok (hsMsgLen stream, [socksVer5, 0]) else .error .ioErr

/-- The expected total request length the parser computes from the address
type: the `reqLen` switch of Service.getRequest, lines 220-231. -/
def requestLen (stream : List Nat) : Except SockErr Nat :=
  if stream.getD idType 0 = typeIPv4 then .ok lenIPv4
  else if stream.getD idType 0 = typeIPv6 then .ok lenIPv6
  else if stream.getD idType 0 = typeDm then .ok (stream.getD idDmLen 0 + lenDmBase)
  else .error .errAddrType

/-- Service.getRequest, lines 185-260 of client.go.

`stream` is the byte sequence the client sends after the handshake, `n` the
number of bytes the initial `io.ReadAtLeast(conn, buf, idDmLen+1)` returned
(the buffer has 263 bytes).  On success the result is the raw address
`buf[idType:reqLen]`.  The debug-only host-string decoding (lines 246-257)
is a side channel that does not affect the returned raw address and is not
modelled. -/
def getRequest (stream : List Nat) (n : Nat) : Except SockErr (List Nat) :=
  if stream.getD idVer 0 ≠ socksVer5 then .error .errVer
  else if stream.getD idCmd 0 ≠ socksCmdConnect then .error .errCmd
  else
    match requestLen stream with
    | .error e => .error e
    | .ok reqLen =>
      if n = reqLen then .ok ((stream.take reqLen).drop idType)
      else if n < reqLen then
        if reqLen ≤ stream.length then .ok ((stream.take reqLen).drop idType)
        else .error .ioErr
      else .error .errReqExtraData

/-- The true SOCKS5 CONNECT request length per RFC 1928, written from the
spec's words (IPv4: 10, IPv6: 22, domain: 7 plus the length byte), to be
compared with the `requestLen` the code computes. -/
def specRequestLength (addrType domLenByte : Nat) : Option Nat :=
  if addrType = 1 then some 10
  else if addrType = 4 then some 22
  else if addrType = 3 then some (7 + domLenByte)
  else none

/-- Big-endian 16-bit decoding, as in `binary.BigEndian.Uint16`. -/
def bigEndian16 (hi lo : Nat) : Nat := hi * 256 + lo

/-- Encoding of a SOCKS5 CONNECT request for an IPv4 address, written from
the spec's words: ver=5, cmd=1, rsv=0, atyp=1, 4 address bytes, 2-byte
big-endian port. -/
def encodeIPv4Request (ip : List Nat) (port : Nat) : List Nat :=
  [5, 1, 0, 1] ++ ip ++ [port / 256, port % 256]

/-- Classification of the error a `src.Read(buf)` call can return inside
the relay loop: a net.OpError whose Timeout() is true (the read deadline
set on line 273 expired), io.EOF, or any other error. -/
inductive ReadErr where
  | timeout
  | eof
  | other
  deriving DecidableEq, Repr

/-- The traffic-listener callback fired by an iteration (lines 283-290). -/
inductive TrafficEvent where
  | sent (n : Nat)
  | received (n : Nat)
  deriving DecidableEq, Repr

/-- How one iteration of the relay loop ends: fall through to the next
iteration, `break` out of the loop, or `return` on the shutdown signal. -/
inductive IterOutcome where
  | nextIter
  | breakLoop
  | shutdownReturn
  deriving DecidableEq, Repr

/-- The observable effects of one iteration of the relay loop:
`written` is the byte count handed to `dst.Write` (none when no write was
issued), `callback` the traffic-listener invocation, `outcome` how the
iteration ended. -/
structure IterResult where
  written : Option Nat
  callback : Option TrafficEvent
  outcome : IterOutcome
  deriving DecidableEq, Repr

/-- One iteration of the `for` loop of Service.pipeThenClose, lines
267-299 of client.go.

`chClosed` is whether the shutdown channel has been closed (a receive on a
closed channel succeeds immediately, so the non-blocking select takes the
`<-s.ch` branch exactly when it is closed); the environment supplies the
read result (`n` bytes plus an optional error `rerr`) and, when a write is
issued, its result `wres` (`.ok w` means success with `w` bytes reported
written, `.error ()` a write error).  `hasListener` is whether
s.trafficListener is non-nil and `directionFlag` the flag the relay was
started with. -/
def pipeIter (chClosed : Bool) (n : Nat) (rerr : Option ReadErr)
    (wres : Except Unit Nat) (hasListener : Bool) (directionFlag : Nat) :
    IterResult :=
  if chClosed then { written := none, callback := none, outcome := .shutdownReturn }
  else if 0 < n then
    match wres with
    | .error _ =>
      -- write failed: log and break, before the read error is examined
      { written := some n, callback := none, outcome := .breakLoop }
    | .ok w =>
      let cb : Option TrafficEvent :=
        if hasListener then
          if directionFlag = directionOutput then some (.sent w)
          else if directionFlag = directionInput then some (.received w)
          else none
        else none
      match rerr with
      | none => { written := some n, callback := cb, outcome := .nextIter }
      | some .timeout => { written := some n, callback := cb, outcome := .nextIter }
      | some _ => { written := some n, callback := cb, outcome := .breakLoop }
  else
    match rerr with
    | none => { written := none, callback := none, outcome := .nextIter }
    | some .timeout => { written := none, callback := none, outcome := .nextIter }
    | some _ => { written := none, callback := none, outcome := .breakLoop }

/-- The two endpoints of one proxied connection: the accepted client-side
connection `conn` and the remote tunnel connection `remote`. -/
inductive Side where
  | client
  | remote
  deriving DecidableEq, Repr

set_option linter.unusedVariables false in
/-- The Close calls `pipeThenClose src dst` performs on the two sides: only
`defer dst.Close()` (line 264) — the source is never closed. -/
def pipeThenCloseCloses (src dst : Side) : List Side :=
  [dst]

/-- Observable events of Service.handleConnection, lines 103-146. -/
inductive HEvent where
  | confirmWrite (bs : List Nat)
  | dialRemote (rawaddr : List Nat)
  | relay (src dst : Side) (directionFlag : Nat)
  | closeSide (s : Side)
  deriving DecidableEq, Repr

/-- The fixed synthetic success reply written on line 122. -/
def confirmationReply : List Nat :=
  [0x05, 0x00, 0x00, 0x01, 0x00, 0x00, 0x00, 0x00, 0x08, 0x43]

/-- Environment of one run of Service.handleConnection: the bytes the
client sends for the handshake and the request, the sizes of the two
initial nondeterministic reads, and the outcomes of the external I/O
actions (the handshake confirmation write, the 10-byte reply write, the
remote dial). -/
structure ConnEnv where
  hsStream : List Nat
  hsN : Nat
  hsWriteOk : Bool
  reqStream : List Nat
  reqN : Nat
  confirmWriteOk : Bool
  dialOk : Bool

/-- Service.handleConnection, lines 103-146 of client.go, as the sequence
of observable events of one run.

The trace is ordered by the handler goroutine's own program order
(confirmation write, then dial, then starting of the two relays); the
relay-exit Close events and the handler's deferred `conn.Close()` run in
concurrent goroutines, so only their multiplicities are meaningful, not
their relative positions.  The result of the `conn.Write` of the 10-byte
reply is only logged (lines 123-125), so the trace does not depend on
`env.confirmWriteOk`.  -/
def handleConnection (env : ConnEnv) : List HEvent :=
  match handShake env.hsStream env.hsN env.hsWriteOk with
  | .error _ => [.closeSide .client]
  | .ok _ =>
    match getRequest env.reqStream env.reqN with
    | .error _ => [.closeSide .client]
    | .ok rawaddr =>
      [.confirmWrite confirmationReply] ++
      (if env.dialOk then
        [.dialRemote rawaddr,
         .relay .remote .client directionInput,
         .relay .client .remote directionOutput] ++
        (pipeThenCloseCloses .remote .client).map .closeSide ++
        (pipeThenCloseCloses .client .remote).map .closeSide
       else []) ++
      [.closeSide .client]

/-- Number of times side `s` is closed during one run. -/
def closeCount (trace : List HEvent) (s : Side) : Nat :=
  trace.count (.closeSide s)

/-- State of a Service: whether the shutdown channel `ch` has been closed,
and the sync.WaitGroup counter of registered, not yet completed units of
work. -/
structure Service where
  chClosed : Bool
  pending : Nat
  deriving DecidableEq, Repr

/-- NewService, lines 53-63: fresh channel, waitGroup.Add(1). -/
def NewService : Service :=
  { chClosed := false, pending := 1 }

/-- `close` on a Go channel: panics (modelled by `none`) when the channel
is already closed, otherwise marks it closed. -/
def closeChan (chClosed : Bool) : Option Bool :=
  if chClosed then none else some true

/-- Service.Stop, lines 98-101: `close(s.ch)` then `s.waitGroup.Wait()`.
A `none` result models a panic.  `Wait` returns exactly when the counter
has reached zero, so the post-state of a completed Stop has `pending = 0`. -/
def Service.Stop (s : Service) : Option Service :=
  (closeChan s.chClosed).map fun c => { chClosed := c, pending := 0 }

/-- A connection-handler environment in which the handshake, the request
parsing (an IPv4 CONNECT to 192.168.1.1:8080) and the remote dial all
succeed, so the connection reaches the Relaying state. -/
def relayEnv : ConnEnv :=
  { hsStream := [5, 1, 0], hsN := 3, hsWriteOk := true,
    reqStream := [5, 1, 0, 1, 192, 168, 1, 1, 31, 144], reqN := 10,
    confirmWriteOk := true, dialOk := true }

/-- Claim C1 counterexample: calling Stop twice on a freshly created
Service panics.  The first Stop closes the shutdown channel; the second
Stop executes `close(s.ch)` on an already-closed channel, which panics in
Go (modelled by `none`), so the second call's signalling is not
idempotent. -/
theorem c1_counterexample :
    Option.bind (Service.Stop NewService) Service.Stop = none := by
  decide

/-- Claim C1 (amended): calling Stop once on a Service whose shutdown
channel is not yet closed succeeds, and after it returns every registered
unit of work has completed (the wait-group counter is zero); calling Stop
again on the resulting state panics, because `close` on an already-closed
channel panics. -/
theorem c1_amended (s : Service) (h : s.chClosed = false) :
    Service.Stop s = some { chClosed := true, pending := 0 } ∧
    ∀ t, Service.Stop s = some t → Service.Stop t = none := by
  constructor
  · simp [Service.Stop, closeChan, h]
  · intro t ht
    simp [Service.Stop, closeChan, h] at ht
    simp [Service.Stop, closeChan, ← ht]

/-- Witness for c1_amended at the freshly constructed Service. -/
theorem c1_amended_witness :
    Service.Stop NewService = some { chClosed := true, pending := 0 } ∧
    ∀ t, Service.Stop NewService = some t → Service.Stop t = none :=
  c1_amended NewService rfl

/-- Claim C2 counterexample: for a connection that reaches the Relaying
state, the client-side connection is closed twice, not exactly once: once
by the remote-to-client relay's deferred `dst.Close()` and once by the
handler's own deferred `conn.Close()` (lines 105-107). -/
theorem c2_counterexample :
    closeCount (handleConnection relayEnv) Side.client = 2 ∧
    ¬ closeCount (handleConnection relayEnv) Side.client = 1 := by
  decide

/-- Claim C2 (amended): each relay invocation closes only its destination
side and never its source, and once both relay directions and the handler
have finished, the remote-side connection has been closed exactly once,
but the client-side connection has been closed twice in total, because the
handler's deferred `conn.Close()` closes it in addition to the
remote-to-client relay. -/
theorem c2_amended (env : ConnEnv) (r : Nat × List Nat) (ra : List Nat)
    (h1 : handShake env.hsStream env.hsN env.hsWriteOk = .ok r)
    (h2 : getRequest env.reqStream env.reqN = .ok ra)
    (h3 : env.dialOk = true) :
    closeCount (handleConnection env) Side.client = 2 ∧
    closeCount (handleConnection env) Side.remote = 1 ∧
    ∀ a b : Side, pipeThenCloseCloses a b = [b] := by
  refine ⟨?_, ?_, fun a b => rfl⟩ <;>
    simp [handleConnection, h1, h2, h3, closeCount, pipeThenCloseCloses,
      List.count_cons, List.count_append]

/-- Witness for c2_amended at the concrete relaying environment. -/
theorem c2_amended_witness :
    closeCount (handleConnection relayEnv) Side.client = 2 ∧
    closeCount (handleConnection relayEnv) Side.remote = 1 ∧
    ∀ a b : Side, pipeThenCloseCloses a b = [b] :=
  c2_amended relayEnv (3, [socksVer5, 0]) [1, 192, 168, 1, 1, 31, 144]
    rfl rfl rfl

/-- Claim C3: for every handshake message with first byte 5 and
method-count `m` whose stream holds exactly `m + 2` bytes, handShake
consumes exactly `m + 2` bytes and writes exactly the two bytes
{0x05, 0x00}, for every admissible size of the initial read; an initial
read that yields more than `m + 2` bytes fails with errAuthExtraData; a
first byte other than 5 fails with errVer. -/
theorem c3_handshake :
    (∀ stream : List Nat, ∀ m k : Nat,
      stream.getD idVer 0 = socksVer5 →
      stream.getD idNmethod 0 = m →
      stream.length = m + 2 →
      readAtLeastOk stream 2 258 k →
      handShake stream k true = .ok (m + 2, [socksVer5, 0])) ∧
    (∀ stream : List Nat, ∀ k : Nat, ∀ writeOk : Bool,
      stream.getD idVer 0 = socksVer5 →
      readAtLeastOk stream 2 258 k →
      stream.getD idNmethod 0 + 2 < k →
      handShake stream k writeOk = .error .errAuthExtraData) ∧
    (∀ stream : List Nat, ∀ k : Nat, ∀ writeOk : Bool,
      stream.getD idVer 0 ≠ socksVer5 →
      readAtLeastOk stream 2 258 k →
      handShake stream k writeOk = .error .errVer) := by
  refine ⟨?_, ?_, ?_⟩
  · intro stream m k hv hm hlen hread
    obtain ⟨hk1, hk2, hk3⟩ := hread
    rw [hlen] at hk2
    have hcond : ¬ (stream.getD idVer 0 ≠ socksVer5) := fun h => h hv
    have hmsg : hsMsgLen stream = m + 2 := by rw [hsMsgLen, hm]
    have hsz : hsSizing stream k = .ok () := by
      unfold hsSizing
      rcases Nat.lt_or_ge k (hsMsgLen stream) with hlt | hge
      · rw [if_neg (Nat.ne_of_lt hlt), if_pos hlt,
          if_pos (by rw [hmsg, hlen] : hsMsgLen stream ≤ stream.length)]
      · have hke : k = hsMsgLen stream :=
          Nat.le_antisymm (by rw [hmsg]; exact hk2) hge
        rw [if_pos hke]
    unfold handShake
    rw [if_neg hcond, hsz, hmsg]
    rfl
  · intro stream k writeOk hv hread hgt
    have hcond : ¬ (stream.getD idVer 0 ≠ socksVer5) := fun h => h hv
    have hsz : hsSizing stream k = .error .errAuthExtraData := by
      have h1 : ¬ k = hsMsgLen stream := by rw [hsMsgLen]; omega
      have h2 : ¬ k < hsMsgLen stream := by rw [hsMsgLen]; omega
      rw [hsSizing, if_neg h1, if_neg h2]
    unfold handShake
    rw [if_neg hcond, hsz]
  · intro stream k writeOk hv _
    unfold handShake
    rw [if_pos hv]

/-- Witness for c3_handshake: the minimal one-method handshake
{5, 1, 0} read as 2 bytes then topped up; the zero-method handshake
{5, 0} read together with a trailing byte; a version-4 message. -/
theorem c3_handshake_witness :
    handShake [5, 1, 0] 2 true = .ok (3, [socksVer5, 0]) ∧
    handShake [5, 0, 9] 3 true = .error .errAuthExtraData ∧
    handShake [4, 1, 0] 3 true = .error .errVer := by
  refine ⟨?_, ?_, ?_⟩
  · have h := c3_handshake.1 [5, 1, 0] 1 2 rfl rfl rfl (by decide)
    simpa using h
  · exact c3_handshake.2.1 [5, 0, 9] 3 true rfl (by decide) (by decide)
  · exact c3_handshake.2.2 [4, 1, 0] 3 true (by decide) (by decide)

/-- Claim C4: for every CONNECT request of a supported address type the
expected total length the parser computes is exactly the true SOCKS5
request length (IPv4: 10, IPv6: 22, domain: 7 plus the length byte) — the
two computations agree in both directions — and whenever the initial read
returned more bytes than that expected length, getRequest fails with
errReqExtraData. -/
theorem c4_request_length :
    (∀ stream : List Nat, ∀ L : Nat,
      requestLen stream = .ok L →
      specRequestLength (stream.getD idType 0) (stream.getD idDmLen 0) = some L) ∧
    (∀ stream : List Nat, ∀ L : Nat,
      specRequestLength (stream.getD idType 0) (stream.getD idDmLen 0) = some L →
      requestLen stream = .ok L) ∧
    (∀ stream : List Nat, ∀ k L : Nat,
      stream.getD idVer 0 = socksVer5 →
      stream.getD idCmd 0 = socksCmdConnect →
      requestLen stream = .ok L →
      readAtLeastOk stream 5 263 k →
      L < k →
      getRequest stream k = .error .errReqExtraData) := by
  refine ⟨?_, ?_, ?_⟩
  · intro stream L h
    unfold requestLen at h
    unfold specRequestLength
    split at h <;> rename_i hc1
    · rw [hc1]
      simp only [Except.ok.injEq] at h
      simp [typeIPv4, lenIPv4, IPv4len, ← h]
    · split at h <;> rename_i hc2
      · rw [hc2]
        simp only [Except.ok.injEq] at h
        simp [typeIPv6, typeIPv4, lenIPv6, IPv6len, ← h]
      · split at h <;> rename_i hc3
        · rw [hc3]
          simp only [Except.ok.injEq] at h
          simp [typeDm, typeIPv4, typeIPv6, lenDmBase, ← h]
          omega
        · cases h
  · intro stream L h
    unfold specRequestLength at h
    unfold requestLen
    split at h <;> rename_i hc1
    · rw [hc1]
      simp only [Option.some.injEq] at h
      simp [typeIPv4, lenIPv4, IPv4len, ← h]
    · split at h <;> rename_i hc2
      · rw [hc2]
        simp only [Option.some.injEq] at h
        simp [typeIPv6, typeIPv4, lenIPv6, IPv6len, hc1, ← h]
      · split at h <;> rename_i hc3
        · rw [hc3]
          simp only [Option.some.injEq] at h
          simp [typeDm, typeIPv4, typeIPv6, lenDmBase, hc1, hc2, ← h]
          omega
        · cases h
  · intro stream k L hv hc hlen hread hgt
    unfold getRequest
    rw [hv, hc, hlen]
    have h1 : ¬ k = L := Nat.ne_of_gt hgt
    have h2 : ¬ k < L := Nat.not_lt_of_gt hgt
    simp [h1, h2]

/-- Witness for c4_request_length: an IPv4 CONNECT request carrying one
trailing garbage byte, fully delivered by the initial read. -/
theorem c4_request_length_witness :
    specRequestLength 1 192 = some 10 ∧
    requestLen [5, 1, 0, 1, 192, 168, 1, 1, 31, 144, 99] = .ok 10 ∧
    getRequest [5, 1, 0, 1, 192, 168, 1, 1, 31, 144, 99] 11 =
      .error .errReqExtraData := by
  refine ⟨?_, ?_, ?_⟩
  · have h := c4_request_length.1 [5, 1, 0, 1, 192, 168, 1, 1, 31, 144, 99] 10 rfl
    simpa using h
  · exact c4_request_length.2.1 [5, 1, 0, 1, 192, 168, 1, 1, 31, 144, 99] 10 (by decide)
  · exact c4_request_length.2.2 [5, 1, 0, 1, 192, 168, 1, 1, 31, 144, 99] 11 10
      rfl rfl rfl (by decide) (by decide)

/-- Claim C5 counterexample: a request whose command byte is 2 but whose
version byte is 6 fails with errVer, not errCmd — the version check runs
first, so not every request with a non-CONNECT command byte yields the
UnsupportedCommand error. -/
theorem c5_counterexample :
    getRequest [6, 2, 0, 1, 0] 5 = .error .errVer ∧
    SockErr.errVer ≠ SockErr.errCmd := by
  refine ⟨rfl, by decide⟩

/-- Claim C5 (amended): for every request whose version byte is 5 and
whose command byte is not 1, getRequest fails with errCmd (a non-5 version
byte instead yields errVer first); for every request with version 5 and
command 1 whose address-type byte is not in {1, 3, 4}, it fails with
errAddrType; whenever getRequest fails, the connection handler performs no
remote dial. -/
theorem c5_amended (stream : List Nat) (k : Nat)
    (hv : stream.getD idVer 0 = socksVer5) :
    (stream.getD idCmd 0 ≠ socksCmdConnect →
      getRequest stream k = .error .errCmd) ∧
    (stream.getD idCmd 0 = socksCmdConnect →
      stream.getD idType 0 ≠ typeIPv4 →
      stream.getD idType 0 ≠ typeDm →
      stream.getD idType 0 ≠ typeIPv6 →
      getRequest stream k = .error .errAddrType) ∧
    (∀ env : ConnEnv, ∀ e : SockErr,
      getRequest env.reqStream env.reqN = .error e →
      ∀ ra : List Nat, HEvent.dialRemote ra ∉ handleConnection env) := by
  refine ⟨?_, ?_, ?_⟩
  · intro hc
    have hvn : ¬ (stream.getD idVer 0 ≠ socksVer5) := fun h => h hv
    rw [getRequest, if_neg hvn, if_pos hc]
  · intro hc h1 h3 h4
    have hvn : ¬ (stream.getD idVer 0 ≠ socksVer5) := fun h => h hv
    have hcn : ¬ (stream.getD idCmd 0 ≠ socksCmdConnect) := fun h => h hc
    have hreq : requestLen stream = .error .errAddrType := by
      rw [requestLen, if_neg h1, if_neg h4, if_neg h3]
    rw [getRequest, if_neg hvn, if_neg hcn, hreq]
  · intro env e he ra
    unfold handleConnection
    cases hhs : handShake env.hsStream env.hsN env.hsWriteOk with
    | error e2 => simp
    | ok r => rw [he]; simp

/-- Witness for c5_amended: a BIND request (cmd=2), an addrtype-2 request,
and the handler trace of a connection whose request is the BIND request. -/
theorem c5_amended_witness :
    getRequest [5, 2, 0, 1, 0] 5 = .error .errCmd ∧
    getRequest [5, 1, 0, 2, 0] 5 = .error .errAddrType ∧
    HEvent.dialRemote [] ∉ handleConnection
      { hsStream := [5, 1, 0], hsN := 3, hsWriteOk := true,
        reqStream := [5, 2, 0, 1, 0], reqN := 5,
        confirmWriteOk := true, dialOk := true } := by
  refine ⟨?_, ?_, ?_⟩
  · exact (c5_amended [5, 2, 0, 1, 0] 5 rfl).1 (by decide)
  · exact (c5_amended [5, 1, 0, 2, 0] 5 rfl).2.1 rfl (by decide) (by decide) (by decide)
  · exact (c5_amended [5, 2, 0, 1, 0] 5 rfl).2.2
      { hsStream := [5, 1, 0], hsN := 3, hsWriteOk := true,
        reqStream := [5, 2, 0, 1, 0], reqN := 5,
        confirmWriteOk := true, dialOk := true }
      .errCmd rfl []

/-- Claim C6: for every well-formed CONNECT request delivered exactly (the
stream is precisely the request), the raw address getRequest returns is
the request bytes from the address-type byte through the end of the port
field, unmodified; in particular the IPv4 request for 192.168.1.1:8080
parses back to the original address bytes and port. -/
theorem c6_roundtrip :
    (∀ stream : List Nat, ∀ k L : Nat,
      stream.getD idVer 0 = socksVer5 →
      stream.getD idCmd 0 = socksCmdConnect →
      requestLen stream = .ok L →
      stream.length = L →
      readAtLeastOk stream 5 263 k →
      getRequest stream k = .ok (stream.drop idType)) ∧
    (getRequest (encodeIPv4Request [192, 168, 1, 1] 8080) 10 =
        .ok [1, 192, 168, 1, 1, 31, 144] ∧
      ([1, 192, 168, 1, 1, 31, 144].drop 1).take IPv4len = [192, 168, 1, 1] ∧
      bigEndian16 ([1, 192, 168, 1, 1, 31, 144].getD 5 0)
          ([1, 192, 168, 1, 1, 31, 144].getD 6 0) = 8080) := by
  constructor
  · intro stream k L hv hc hreq hlen hread
    obtain ⟨hk1, hk2, hk3⟩ := hread
    have hvn : ¬ (stream.getD idVer 0 ≠ socksVer5) := fun h => h hv
    have hcn : ¬ (stream.getD idCmd 0 ≠ socksCmdConnect) := fun h => h hc
    have htake : stream.take L = stream := List.take_of_length_le (le_of_eq hlen)
    rw [getRequest, if_neg hvn, if_neg hcn, hreq]
    rw [hlen] at hk2
    show (if k = L then Except.ok ((stream.take L).drop idType)
        else if k < L then
          if L ≤ stream.length then Except.ok ((stream.take L).drop idType)
          else Except.error SockErr.ioErr
        else Except.error SockErr.errReqExtraData) =
      Except.ok (stream.drop idType)
    rcases Nat.lt_or_ge k L with hlt | hge
    · rw [if_neg (Nat.ne_of_lt hlt), if_pos hlt,
        if_pos (le_of_eq hlen.symm), htake]
    · rw [if_pos (Nat.le_antisymm hk2 hge), htake]
  · exact ⟨rfl, rfl, rfl⟩

/-- Witness for c6_roundtrip: the general part applied to the encoded
IPv4 request for 192.168.1.1:8080. -/
theorem c6_roundtrip_witness :
    getRequest (encodeIPv4Request [192, 168, 1, 1] 8080) 10 =
      .ok ((encodeIPv4Request [192, 168, 1, 1] 8080).drop idType) :=
  c6_roundtrip.1 (encodeIPv4Request [192, 168, 1, 1] 8080) 10 10
    rfl rfl rfl rfl (by decide)

/-- Claim C7: in a relay-loop iteration reached without the shutdown
signal, a read failing with a deadline-expiry error does not terminate the
loop (when the forwarding write, if one was needed, succeeded), while an
EOF or any other read error terminates it; and a terminating read that
still returned `n > 0` bytes has those `n` bytes handed to the destination
write before the loop ends. -/
theorem c7_read_errors (n : Nat) (rerr : Option ReadErr)
    (wres : Except Unit Nat) (hl : Bool) (dir : Nat) :
    (rerr = some .timeout → (n = 0 ∨ ∃ w, wres = .ok w) →
      (pipeIter false n rerr wres hl dir).outcome = .nextIter) ∧
    ((rerr = some .eof ∨ rerr = some .other) →
      (pipeIter false n rerr wres hl dir).outcome = .breakLoop) ∧
    ((rerr = some .eof ∨ rerr = some .other) → 0 < n →
      (pipeIter false n rerr wres hl dir).written = some n) := by
  refine ⟨?_, ?_, ?_⟩
  · rintro rfl (rfl | ⟨w, rfl⟩)
    · simp [pipeIter]
    · cases n <;> simp [pipeIter]
  · rintro (rfl | rfl) <;> cases n <;> cases wres <;> simp [pipeIter]
  · rintro (rfl | rfl) hn <;> cases n <;> cases wres <;> simp [pipeIter] at hn ⊢

/-- Witness for c7_read_errors: a timeout after a forwarded byte
continues; an EOF after a forwarded byte breaks, with the byte written. -/
theorem c7_read_errors_witness :
    (pipeIter false 1 (some .timeout) (.ok 1) true directionOutput).outcome
        = .nextIter ∧
    (pipeIter false 1 (some .eof) (.ok 1) true directionOutput).outcome
        = .breakLoop ∧
    (pipeIter false 1 (some .eof) (.ok 1) true directionOutput).written
        = some 1 :=
  ⟨(c7_read_errors 1 (some .timeout) (.ok 1) true directionOutput).1
      rfl (Or.inr ⟨1, rfl⟩),
    (c7_read_errors 1 (some .eof) (.ok 1) true directionOutput).2.1
      (Or.inl rfl),
    (c7_read_errors 1 (some .eof) (.ok 1) true directionOutput).2.2
      (Or.inl rfl) (by decide)⟩

/-- Claim C8: in a relay-loop iteration reached without the shutdown
signal that read `n > 0` bytes, a successful write reporting `w` bytes
fires the direction-matching traffic callback with `w` exactly when a
listener is attached (Sent for the outbound flag, Received for the inbound
flag); a failed write breaks the loop and fires no callback. -/
theorem c8_traffic_callback (n w : Nat) (hl : Bool) (rerr : Option ReadErr)
    (dir : Nat) (hn : 0 < n) :
    ((pipeIter false n rerr (.ok w) hl directionOutput).callback
        = if hl then some (.sent w) else none) ∧
    ((pipeIter false n rerr (.ok w) hl directionInput).callback
        = if hl then some (.received w) else none) ∧
    ((pipeIter false n rerr (.error ()) hl dir).outcome = .breakLoop ∧
      (pipeIter false n rerr (.error ()) hl dir).callback = none) := by
  cases n with
  | zero => cases hn
  | succ m =>
    refine ⟨?_, ?_, ?_, ?_⟩ <;>
      rcases rerr with - | re <;> try cases re
    all_goals cases hl <;> simp [pipeIter, directionOutput, directionInput]

/-- Witness for c8_traffic_callback at one forwarded byte with a listener
attached. -/
theorem c8_traffic_callback_witness :
    ((pipeIter false 1 none (.ok 1) true directionOutput).callback
        = some (.sent 1)) ∧
    ((pipeIter false 1 none (.ok 1) true directionInput).callback
        = some (.received 1)) ∧
    (pipeIter false 1 none (.error ()) true directionOutput).outcome
        = .breakLoop := by
  have h := c8_traffic_callback 1 1 true none directionOutput (by decide)
  exact ⟨h.1, h.2.1, h.2.2.1⟩

/-- Claim C9: when the handshake and the request parsing both succeed, the
handler's very first subsequent action is writing the fixed 10-byte reply
{0x05, 0x00, 0x00, 0x01, 0x00, 0x00, 0x00, 0x00, 0x08, 0x43} to the
client, and every remote-dial event occurs strictly after it. -/
theorem c9_confirmation_reply (env : ConnEnv) (r : Nat × List Nat)
    (ra : List Nat)
    (h1 : handShake env.hsStream env.hsN env.hsWriteOk = .ok r)
    (h2 : getRequest env.reqStream env.reqN = .ok ra) :
    (∃ rest, handleConnection env =
      HEvent.confirmWrite
        [0x05, 0x00, 0x00, 0x01, 0x00, 0x00, 0x00, 0x00, 0x08, 0x43]
        :: rest) ∧
    ∀ pre post : List HEvent, ∀ ra2 : List Nat,
      handleConnection env = pre ++ HEvent.dialRemote ra2 :: post →
      pre ≠ [] := by
  have htr : ∃ rest, handleConnection env =
      HEvent.confirmWrite confirmationReply :: rest := by
    unfold handleConnection
    rw [h1, h2]
    exact ⟨_, rfl⟩
  obtain ⟨rest, hrest⟩ := htr
  constructor
  · exact ⟨rest, hrest⟩
  · intro pre post ra2 hsplit hpre
    subst hpre
    rw [hrest] at hsplit
    simp at hsplit

/-- Witness for c9_confirmation_reply at the concrete relaying
environment. -/
theorem c9_confirmation_reply_witness :
    (∃ rest, handleConnection relayEnv =
      HEvent.confirmWrite
        [0x05, 0x00, 0x00, 0x01, 0x00, 0x00, 0x00, 0x00, 0x08, 0x43]
        :: rest) ∧
    ∀ pre post : List HEvent, ∀ ra2 : List Nat,
      handleConnection relayEnv = pre ++ HEvent.dialRemote ra2 :: post →
      pre ≠ [] :=
  c9_confirmation_reply relayEnv (3, [socksVer5, 0])
    [1, 192, 168, 1, 1, 31, 144] rfl rfl

/-- Claim C10: when the handshake and the request parsing succeed but the
write of the 10-byte confirmation reply fails, the handler still dials the
remote tunnel and, the dial succeeding, starts both relay directions: its
trace is identical to the one with a successful confirmation write. -/
theorem c10_confirm_write_failure (env : ConnEnv) (r : Nat × List Nat)
    (ra : List Nat)
    (h1 : handShake env.hsStream env.hsN env.hsWriteOk = .ok r)
    (h2 : getRequest env.reqStream env.reqN = .ok ra)
    (_h3 : env.confirmWriteOk = false)
    (h4 : env.dialOk = true) :
    handleConnection env =
      [.confirmWrite confirmationReply,
       .dialRemote ra,
       .relay .remote .client directionInput,
       .relay .client .remote directionOutput,
       .closeSide .client,
       .closeSide .remote,
       .closeSide .client] := by
  unfold handleConnection
  rw [h1, h2, h4]
  rfl

/-- Witness for c10_confirm_write_failure: the relaying environment with a
failing confirmation write. -/
theorem c10_confirm_write_failure_witness :
    handleConnection { relayEnv with confirmWriteOk := false } =
      [.confirmWrite confirmationReply,
       .dialRemote [1, 192, 168, 1, 1, 31, 144],
       .relay .remote .client directionInput,
       .relay .client .remote directionOutput,
       .closeSide .client,
       .closeSide .remote,
       .closeSide .client] :=
  c10_confirm_write_failure { relayEnv with confirmWriteOk := false }
    (3, [socksVer5, 0]) [1, 192, 168, 1, 1, 31, 144] rfl rfl rfl rfl

end Shadowsocks
